import Mathlib

/-!
Verification development for the jsPsych plugin-voice-response plugin
(src/src/index.ts).

The plugin is a browser event-driven trial controller.  We embed it as a
small-step transition system: every JavaScript callback in the source
(device event handlers, timer callbacks, button click handlers, FileReader
load handlers, promise continuations) runs to completion atomically, which
matches the single-threaded JavaScript execution model.  The environment
chooses which pending event is delivered next ("Ev" below); delivery order
between independent asynchronous sources (device events, timers, clicks,
FileReader completions, queued promise continuations) is adversarial, which
over-approximates the browser scheduler.  Device events produced by the
recorder are delivered in FIFO order, matching the MediaRecorder contract.

Timestamps are DOMHighResTimeStamp values (fractional milliseconds), which
we model as rationals.  Because rational arithmetic does not reduce well in
the kernel, the model performs the source's Math.round(a - b) through
jsRound, an integer-level computation on the numerators and denominators;
jsRound_eq proves it equal to round (a - b).

Host (jsPsych) behaviour at the interface boundary, per the spec:
finishTrial records the outcome, clears the display element and clears
plugin timeouts; pluginAPI.setTimeout is a fire-once timer with no
cancellation; getMicrophoneRecorder hands over an inactive recorder.
-/

namespace VoiceResponse

/-- Math.round (a - b) for rational timestamps a and b, computed purely with
integer arithmetic so that concrete traces evaluate in the kernel.
Math.round x = floor (x + 1/2). -/
def jsRound (a b : ℚ) : ℤ :=
  (2 * (a.num * (b.den : ℤ) - b.num * (a.den : ℤ)) + ((a.den * b.den : ℕ) : ℤ)) /
    (((2 * (a.den * b.den) : ℕ) : ℤ))

theorem jsRound_eq (a b : ℚ) : jsRound a b = round (a - b) := by
  have hda : ((a.den : ℚ)) ≠ 0 := by
    exact_mod_cast a.den_nz
  have hdb : ((b.den : ℚ)) ≠ 0 := by
    exact_mod_cast b.den_nz
  rw [round_eq, jsRound]
  rw [show a - b + 1/2 =
      ((2 * (a.num * (b.den : ℤ) - b.num * (a.den : ℤ)) + ((a.den * b.den : ℕ) : ℤ) : ℤ) : ℚ) /
      (((2 * (a.den * b.den) : ℕ) : ℕ) : ℚ) from ?_]
  · rw [Rat.floor_intCast_div_natCast]
  · rw [eq_div_iff (by positivity)]
    push_cast
    nth_rewrite 1 [← Rat.num_div_den a, ← Rat.num_div_den b]
    field_simp
    ring

/-- The trial parameters of the plugin (the "info.parameters" object),
immutable for the duration of a trial. -/
structure Config where
  stimulus : String
  stimulus_duration : Option ℚ
  recording_duration : Option ℚ
  show_done_button : Bool
  done_button_label : String
  record_again_button_label : String
  accept_button_label : String
  allow_playback : Bool
  save_audio_url : Bool
  local_download : Bool
  download_file_name : String
deriving DecidableEq, Repr

/-- A binary audio fragment delivered by a dataavailable event: its bytes and
its declared content type (e.data and e.data.type). -/
structure Chunk where
  data : List Nat
  type : String
deriving DecidableEq, Repr

/-- Device lifecycle events queued by the recorder; recorder.start() queues a
start event and recorder.stop() queues a stop event, delivered FIFO. -/
inductive DevQ
  | started
  | stopped
deriving DecidableEq, Repr

/-- MediaRecorder.state as far as the plugin inspects it. -/
inductive RecState
  | inactive
  | recording
deriving DecidableEq, Repr

/-- What the display element currently shows: nothing yet, the stimulus
screen (with or without the done button, stimulus visible or hidden), the
playback/review controls, or the host's post-trial state after finishTrial
cleared the element. -/
inductive Display
  | blank
  | stim (doneShown : Bool) (visible : Bool)
  | playback
  | cleared
deriving DecidableEq, Repr

/-- The trial_data payload handed to jsPsych.finishTrial.  A missing
estimated_stimulus_onset (none) stands for the NaN the source would compute
if one of the two timestamps were still undefined. -/
structure TrialData where
  rt : Option ℤ
  stimulus : String
  response : Option String
  estimated_stimulus_onset : Option ℤ
  audio_url : Option ℕ
deriving DecidableEq, Repr

/-- The complete instantaneous state of one trial: the plugin instance's
mutable fields, the recorder, the queued device events, the armed one-shot
timers (counts, since all deadline timer callbacks are identical closures),
the pending ResizeObserver callbacks, the pending FileReader loads (FIFO,
each capturing the blob bytes it is reading), the stop-promise resolver
(load_resolver: armed means a pending promise with the after-stop
continuation attached), queued promise continuations, and ghost counters
(stopRequests, revoked, outcomes) recording externally visible actions. -/
structure St where
  recState : RecState
  devQueue : List DevQ
  recorded_data_chunks : List Chunk
  response : Option String
  audio_url : Option ℕ
  nextUrl : ℕ
  revoked : List ℕ
  rt : Option ℤ
  stimulus_start_time : Option ℚ
  recorder_start_time : Option ℚ
  hideTimers : ℕ
  deadlineTimers : ℕ
  resizeObs : ℕ
  display : Display
  resolverArmed : Bool
  contQueued : ℕ
  b64Readers : List (List Nat)
  bufReaders : List (List Nat)
  arrayBuffer : Option (List Nat)
  dataBlob : Option (List Nat)
  listeners : Bool
  outcomes : List TrialData
  stopRequests : ℕ
deriving DecidableEq, Repr

/-! ### Base64 (the FileReader.readAsDataURL text encoding)

readAsDataURL produces "data:TYPE;base64,PAYLOAD" and the source takes
split(",")[1], i.e. the base64 payload of the blob's bytes (the base64
alphabet and audio MIME types contain no comma).  We model the payload
directly. -/

def b64Alphabet : List Char :=
  ['A','B','C','D','E','F','G','H','I','J','K','L','M',
   'N','O','P','Q','R','S','T','U','V','W','X','Y','Z',
   'a','b','c','d','e','f','g','h','i','j','k','l','m',
   'n','o','p','q','r','s','t','u','v','w','x','y','z',
   '0','1','2','3','4','5','6','7','8','9','+','/']

def b64Char (n : Nat) : Char := b64Alphabet.getD n '?'

def b64CharIndex (c : Char) : Option Nat := b64Alphabet.indexOf? c

/-- Standard base64 of a byte sequence, three bytes to four characters, with
"=" padding. -/
def base64Chars : List Nat → List Char
  | [] => []
  | [b0] => [b64Char (b0 / 4), b64Char (b0 % 4 * 16), '=', '=']
  | [b0, b1] => [b64Char (b0 / 4), b64Char (b0 % 4 * 16 + b1 / 16), b64Char (b1 % 16 * 4), '=']
  | b0 :: b1 :: b2 :: rest =>
      b64Char (b0 / 4) :: b64Char (b0 % 4 * 16 + b1 / 16) ::
      b64Char (b1 % 16 * 4 + b2 / 64) :: b64Char (b2 % 64) :: base64Chars rest

def base64Encode (bs : List Nat) : String := String.mk (base64Chars bs)

/-- Base64 decoding, the inverse reading: four characters to three bytes,
honouring "=" padding in the final group. -/
def b64DecodeChars : List Char → Option (List Nat)
  | [] => some []
  | c0 :: c1 :: c2 :: c3 :: rest => do
      let s0 ← b64CharIndex c0
      let s1 ← b64CharIndex c1
      if c2 = '=' then
        if c3 = '=' ∧ rest = [] then pure [s0 * 4 + s1 / 16] else none
      else
        let s2 ← b64CharIndex c2
        if c3 = '=' then
          if rest = [] then pure [s0 * 4 + s1 / 16, s1 % 16 * 16 + s2 / 4] else none
        else do
          let s3 ← b64CharIndex c3
          let tail ← b64DecodeChars rest
          pure ((s0 * 4 + s1 / 16) :: (s1 % 16 * 16 + s2 / 4) :: (s2 % 4 * 64 + s3) :: tail)
  | _ => none

def base64Decode (s : String) : Option (List Nat) := b64DecodeChars s.data

theorem b64CharIndex_b64Char : ∀ n < 64, b64CharIndex (b64Char n) = some n := by decide

theorem b64Char_ne_pad : ∀ n < 64, b64Char n ≠ '=' := by decide

theorem b64_roundtrip_chars : ∀ bs : List Nat, (∀ b ∈ bs, b < 256) →
    b64DecodeChars (base64Chars bs) = some bs := by
  intro bs
  induction bs using base64Chars.induct with
  | case1 =>
    intro _
    rfl
  | case2 b0 =>
    intro h
    have hb0 : b0 < 256 := h b0 (by simp)
    have hs0 := b64CharIndex_b64Char (b0 / 4) (by omega)
    have hs1 := b64CharIndex_b64Char (b0 % 4 * 16) (by omega)
    simp [base64Chars, b64DecodeChars, hs0, hs1]
    omega
  | case3 b0 b1 =>
    intro h
    have hb0 : b0 < 256 := h b0 (by simp)
    have hb1 : b1 < 256 := h b1 (by simp)
    have hs0 := b64CharIndex_b64Char (b0 / 4) (by omega)
    have hs1 := b64CharIndex_b64Char (b0 % 4 * 16 + b1 / 16) (by omega)
    have hs2 := b64CharIndex_b64Char (b1 % 16 * 4) (by omega)
    have hne := b64Char_ne_pad (b1 % 16 * 4) (by omega)
    simp [base64Chars, b64DecodeChars, hs0, hs1, hs2, hne]
    omega
  | case4 b0 b1 b2 rest ih =>
    intro h
    have hb0 : b0 < 256 := h b0 (by simp)
    have hb1 : b1 < 256 := h b1 (by simp)
    have hb2 : b2 < 256 := h b2 (by simp)
    have hrest : ∀ b ∈ rest, b < 256 := by
      intro b hb
      exact h b (by simp [hb])
    have hs0 := b64CharIndex_b64Char (b0 / 4) (by omega)
    have hs1 := b64CharIndex_b64Char (b0 % 4 * 16 + b1 / 16) (by omega)
    have hs2 := b64CharIndex_b64Char (b1 % 16 * 4 + b2 / 64) (by omega)
    have hs3 := b64CharIndex_b64Char (b2 % 64) (by omega)
    have hne2 := b64Char_ne_pad (b1 % 16 * 4 + b2 / 64) (by omega)
    have hne3 := b64Char_ne_pad (b2 % 64) (by omega)
    simp [base64Chars, b64DecodeChars, hs0, hs1, hs2, hs3, hne2, hne3, ih hrest]
    omega

theorem base64_roundtrip (bs : List Nat) (h : ∀ b ∈ bs, b < 256) :
    base64Decode (base64Encode bs) = some bs := by
  have : (String.mk (base64Chars bs)).data = base64Chars bs := rfl
  rw [base64Decode, base64Encode, this]
  exact b64_roundtrip_chars bs h

/-! ### The trial transition system (src/src/index.ts) -/

/-- The bytes of the Blob assembled from the accumulated fragments
(new Blob(this.recorded_data_chunks, ...)): concatenation of the
fragments' bytes. -/
def blobBytes (cs : List Chunk) : List Nat := (cs.map Chunk.data).flatten

/-- The local-download file name built in the stop handler:
download_file_name, a dash, Date.now(), and the ".wav" suffix. -/
def downloadFilename (cfg : Config) (now : ℤ) : String :=
  cfg.download_file_name ++ "-" ++ toString now ++ ".wav"

/-- showDisplay: render the stimulus (and the done button when configured)
into the display element, and observe the element with a fresh
ResizeObserver whose initial callback will record stimulus_start_time. -/
def showDisplay (cfg : Config) (s : St) : St :=
  { s with display := Display.stim cfg.show_done_button true,
           resizeObs := s.resizeObs + 1 }

/-- hideStimulus: set the stimulus element's visibility to hidden, when the
stimulus markup is still in the display element. -/
def hideStimulus (s : St) : St :=
  match s.display with
  | Display.stim d _ => { s with display := Display.stim d false }
  | _ => s

/-- this.stopRecording(): recorder.stop() (which throws InvalidStateError if
the recorder is inactive, leaving everything unchanged), queuing the stop
event, then a fresh promise whose resolver becomes this.load_resolver, with
the caller's .then continuation attached.  stopRequests is a ghost counter
of the device-stop requests issued. -/
def stopRecording (s : St) : St :=
  if s.recState = RecState.recording then
    { s with recState := RecState.inactive,
             devQueue := s.devQueue ++ [DevQ.stopped],
             resolverArmed := true,
             stopRequests := s.stopRequests + 1 }
  else s

/-- this.startRecording(): recorder.start(), which throws if the recorder is
not inactive; on success the recorder becomes recording and queues the
start event. -/
def startRecordingOn (s : St) : St :=
  if s.recState = RecState.inactive then
    { s with recState := RecState.recording, devQueue := s.devQueue ++ [DevQ.started] }
  else s

/-- this.load_resolver(): resolve the pending stop promise.  When armed, the
attached after-stop continuation (the body of the .then in the done-click
handler and in the deadline timer callback, which are the same code) is
queued as a continuation; resolving an already-resolved promise does
nothing. -/
def resolveLoad (s : St) : St :=
  if s.resolverArmed then
    { s with resolverArmed := false, contQueued := s.contQueued + 1 }
  else s

/-- this.data_available_handler: append the fragment when e.data.size > 0;
empty fragments are filtered, never appended. -/
def data_available_handler (c : Chunk) (s : St) : St :=
  if c.data.length > 0 then
    { s with recorded_data_chunks := s.recorded_data_chunks ++ [c] }
  else s

/-- this.stop_event_handler.  Its first expression reads
this.recorded_data_chunks[0].type while building the Blob; on an empty
fragment sequence that access is undefined and the handler throws
(returns none) before any effect.  Otherwise it creates the object URL,
on local_download triggers the download, sets the response to the
generated file name and resolves the stop promise, and in every case
(the source has no early return) starts the base64 FileReader and the
arrayBuffer FileReader on the assembled Blob. -/
def stop_event_handler (cfg : Config) (now : ℤ) (s : St) : Option St :=
  match s.recorded_data_chunks with
  | [] => none
  | _c :: _ =>
    let bytes := blobBytes s.recorded_data_chunks
    let s1 := { s with audio_url := some s.nextUrl, nextUrl := s.nextUrl + 1,
                       b64Readers := s.b64Readers ++ [bytes],
                       bufReaders := s.bufReaders ++ [bytes],
                       dataBlob := some bytes }
    some (if cfg.local_download then
            resolveLoad { s1 with response := some (downloadFilename cfg now) }
          else s1)

/-- this.start_event_handler: reset the fragment accumulator, record the
recording start time from the event's timestamp, render the display, wire
the done button, and arm the stimulus-hide and recording-deadline one-shot
timers when configured. -/
def start_event_handler (cfg : Config) (t : ℚ) (s : St) : St :=
  { showDisplay cfg { s with recorded_data_chunks := [], recorder_start_time := some t } with
    hideTimers := s.hideTimers + (if cfg.stimulus_duration.isSome then 1 else 0),
    deadlineTimers := s.deadlineTimers + (if cfg.recording_duration.isSome then 1 else 0) }

/-- The trial_data object assembled in endTrial. -/
def endTrialData (cfg : Config) (s : St) : TrialData :=
  { rt := s.rt
    stimulus := cfg.stimulus
    response := s.response
    estimated_stimulus_onset :=
      match s.stimulus_start_time, s.recorder_start_time with
      | some sv, some rs => some (jsRound sv rs)
      | _, _ => none
    audio_url := if cfg.save_audio_url then s.audio_url else none }

/-- this.endTrial: remove the recorder event listeners, assemble trial_data,
keep or revoke the object URL according to save_audio_url, and call
jsPsych.finishTrial (which records the outcome, clears the display element
and clears the plugin's pending timeouts).  The detached transcribe call is
modelled separately (it shares no trial state). -/
def endTrial (cfg : Config) (s : St) : St :=
  { s with listeners := false,
           revoked := s.revoked ++ (if cfg.save_audio_url then [] else s.audio_url.toList),
           outcomes := s.outcomes ++ [endTrialData cfg s],
           display := Display.cleared,
           hideTimers := 0,
           deadlineTimers := 0 }

/-- this.showPlaybackControls: replace the display content with the playback
element and the record-again and accept buttons. -/
def showPlaybackControls (s : St) : St :=
  { s with display := Display.playback }

/-- The continuation attached after stopRecording (identical in the
done-click handler and the deadline timer callback): show the playback
controls when allow_playback, otherwise end the trial. -/
def afterStop (cfg : Config) (s : St) : St :=
  if cfg.allow_playback then showPlaybackControls s else endTrial cfg s

/-- The events the environment can deliver: device events from the
recorder's FIFO queue (with the event timestamp for start, and the
Date.now() reading for the stop handler), dataavailable events, the initial
ResizeObserver callback, the two one-shot timers, the three buttons, the
two FileReader load events (FIFO), and running a queued promise
continuation. -/
inductive Ev
  | deliverDevice (t : ℚ) (now : ℤ)
  | deliverData (c : Chunk)
  | resizeFire (t : ℚ)
  | fireHideTimer
  | fireDeadlineTimer
  | clickDone (t : ℚ)
  | clickRecordAgain
  | clickContinue
  | readerB64Load
  | readerBufLoad
  | runCont

/-- One atomic callback execution.  Button clicks are only deliverable while
the corresponding button is rendered; device handlers only run while the
recorder listeners are attached (events delivered after endTrial pop the
queue without effect); dataavailable can arrive while recording or between
a stop request and its stop event.  A done click is modelled only after the
initial ResizeObserver callback has recorded stimulus_start_time, which in
a browser happens at render, before any human click. -/
def step (cfg : Config) (s : St) : Ev → St
  | Ev.deliverDevice t now =>
    match s.devQueue with
    | [] => s
    | e :: rest =>
      let s1 := { s with devQueue := rest }
      if s1.listeners then
        match e with
        | DevQ.started => start_event_handler cfg t s1
        | DevQ.stopped => (stop_event_handler cfg now s1).getD s1
      else s1
  | Ev.deliverData c =>
    if s.recState = RecState.recording ∨ DevQ.stopped ∈ s.devQueue then
      if s.listeners then data_available_handler c s else s
    else s
  | Ev.resizeFire t =>
    if s.resizeObs > 0 then
      { s with resizeObs := s.resizeObs - 1, stimulus_start_time := some t }
    else s
  | Ev.fireHideTimer =>
    if s.hideTimers > 0 then hideStimulus { s with hideTimers := s.hideTimers - 1 } else s
  | Ev.fireDeadlineTimer =>
    if s.deadlineTimers > 0 then
      let s1 := { s with deadlineTimers := s.deadlineTimers - 1 }
      if s1.recState ≠ RecState.inactive then stopRecording s1 else s1
    else s
  | Ev.clickDone t =>
    match s.display, s.stimulus_start_time with
    | Display.stim true _, some sv => stopRecording { s with rt := some (jsRound t sv) }
    | _, _ => s
  | Ev.clickRecordAgain =>
    if s.display = Display.playback then
      startRecordingOn { s with revoked := s.revoked ++ s.audio_url.toList }
    else s
  | Ev.clickContinue =>
    if s.display = Display.playback then endTrial cfg s else s
  | Ev.readerB64Load =>
    match s.b64Readers with
    | [] => s
    | bytes :: rest =>
      resolveLoad { s with b64Readers := rest, response := some (base64Encode bytes) }
  | Ev.readerBufLoad =>
    match s.bufReaders with
    | [] => s
    | bytes :: rest => { s with bufReaders := rest, arrayBuffer := some bytes }
  | Ev.runCont =>
    if s.contQueued > 0 then afterStop cfg { s with contQueued := s.contQueued - 1 } else s

/-- The state after trial(): the recorder handle acquired (inactive),
listeners attached by setupRecordingEvents, then startRecording, which puts
the recorder in the recording state with the start event queued. -/
def initSt : St :=
  { recState := RecState.recording
    devQueue := [DevQ.started]
    recorded_data_chunks := []
    response := none
    audio_url := none
    nextUrl := 0
    revoked := []
    rt := none
    stimulus_start_time := none
    recorder_start_time := none
    hideTimers := 0
    deadlineTimers := 0
    resizeObs := 0
    display := Display.blank
    resolverArmed := false
    contQueued := 0
    b64Readers := []
    bufReaders := []
    arrayBuffer := none
    dataBlob := none
    listeners := true
    outcomes := []
    stopRequests := 0 }

/-- Run a trial under an environment-chosen event schedule. -/
def run (cfg : Config) (evs : List Ev) : St := evs.foldl (step cfg) initSt

/-! ### The Transcription Dispatcher (the transcribe function) -/

/-- The failure modes of the dispatcher named by the spec. -/
inductive TrError
  | engineUnavailable
  | fetchFailure
  | decodeFailure
  | engineFailure
deriving DecidableEq, Repr

/-- One invocation of the loaded transcriber: the audio-source argument and
the return_timestamps option value passed along. -/
structure EngineCall where
  source : String
  return_ts : String
deriving DecidableEq, Repr

/-- The audio-source string hard-wired into the transcriber invocation in
the source (the local variable wav). -/
def hardcodedWav : String :=
  "http://localhost:8000/examples/audio-response-1747257891581.wav"

/-- The external collaborators of transcribe: the pipeline loader, fetch on
a URL, and the loaded transcriber itself.  Each may fail. -/
structure TranscribeEnv where
  pipelineResult : Except TrError Unit
  fetchResult : String → Except TrError (List Nat)
  transcriberResult : EngineCall → Except TrError String

/-- What a completed transcribe run did: the engine call it made, the
transcript, and the console.log entries it emitted. -/
structure TranscribeRun where
  call : EngineCall
  output : String
  logged : List String
deriving DecidableEq, Repr

/-- The transcribe function: await pipeline(...), await
fetch(audio_url).arrayBuffer() (the result is bound but unused by the
live code), then await transcriber(wav, return_timestamps word) on the
hard-coded wav URL, then console.log(output).  There is no try/catch: a
failing await rejects the async function's promise, so failures escape as
the error value and nothing is logged. -/
def transcribe (env : TranscribeEnv) (audio_url : String)
    (_arrayBuffer _data : Option (List Nat)) : Except TrError TranscribeRun := do
  let _transcriber ← env.pipelineResult
  let _dataArrayBuffer ← env.fetchResult audio_url
  let call : EngineCall := { source := hardcodedWav, return_ts := "word" }
  let output ← env.transcriberResult call
  pure { call := call, output := output, logged := [output] }

/-! ### Invariants -/

/-- Inductive invariant for trials configured without the playback/review
screen: the playback display never appears, a device-stop request can only
be issued while no other was issued before (the recorder records only once,
since record-again is unreachable), and the number of emitted outcomes plus
queued continuations plus the armed resolver never exceeds the number of
stop requests. -/
def InvNP (s : St) : Prop :=
  s.display ≠ Display.playback ∧
  (s.recState = RecState.recording → s.stopRequests = 0) ∧
  s.outcomes.length + s.contQueued + (if s.resolverArmed then 1 else 0) ≤ s.stopRequests ∧
  s.stopRequests ≤ 1

theorem invNP_init : InvNP initSt := by
  simp [InvNP, initSt]

theorem invNP_step (cfg : Config) (h : cfg.allow_playback = false)
    (s : St) (hs : InvNP s) (e : Ev) : InvNP (step cfg s e) := by
  obtain ⟨rec, dq, chunks, resp, aurl, nurl, rvk, rtv, sst, rst, ht, dt, ro, disp,
    ra, cq, rb, rbuf, ab, db, ls, oc, srq⟩ := s
  obtain ⟨h1, h2, h3, h4⟩ := hs
  simp only [InvNP] at h1 h2 h3 h4 ⊢
  cases e with
  | deliverDevice t now =>
    cases dq with
    | nil => exact ⟨h1, h2, h3, h4⟩
    | cons e1 rest =>
      cases ls with
      | false => exact ⟨h1, h2, h3, h4⟩
      | true =>
        cases e1 with
        | started =>
          exact ⟨by show Display.stim cfg.show_done_button true ≠ Display.playback; simp,
            h2, h3, h4⟩
        | stopped =>
          cases chunks with
          | nil => exact ⟨h1, h2, h3, h4⟩
          | cons c cs =>
            simp only [step, stop_event_handler, Option.getD_some, resolveLoad]
            by_cases hd : cfg.local_download <;> cases ra <;>
              simp only [hd, if_true, if_false, reduceIte] at h3 ⊢ <;>
              exact ⟨h1, h2, by simpa using h3, h4⟩
  | deliverData c =>
    simp only [step, data_available_handler]
    split
    · split
      · split <;> exact ⟨h1, h2, h3, h4⟩
      · exact ⟨h1, h2, h3, h4⟩
    · exact ⟨h1, h2, h3, h4⟩
  | resizeFire t =>
    simp only [step]
    split <;> exact ⟨h1, h2, h3, h4⟩
  | fireHideTimer =>
    simp only [step, hideStimulus]
    split
    · cases disp <;> simp only <;> exact ⟨by simp_all, h2, h3, h4⟩
    · exact ⟨h1, h2, h3, h4⟩
  | fireDeadlineTimer =>
    simp only [step, stopRecording]
    split
    · split
      · split
        · rename_i hne hrec
          have h0 : srq = 0 := h2 (by revert hrec hne; cases rec <;> simp)
          refine ⟨h1, by simp, ?_, ?_⟩
          · show oc.length + cq + 1 ≤ srq + 1
            omega
          · show srq + 1 ≤ 1
            omega
        · exact ⟨h1, h2, h3, h4⟩
      · exact ⟨h1, h2, h3, h4⟩
    · exact ⟨h1, h2, h3, h4⟩
  | clickDone t =>
    cases disp with
    | stim doneb vis =>
      cases doneb with
      | false => exact ⟨h1, h2, h3, h4⟩
      | true =>
        cases sst with
        | none => exact ⟨h1, h2, h3, h4⟩
        | some sv =>
          simp only [step, stopRecording]
          split
          · rename_i hrec
            have h0 : srq = 0 := h2 (by simpa using hrec)
            refine ⟨by simp, by simp, ?_, ?_⟩
            · show oc.length + cq + 1 ≤ srq + 1
              omega
            · show srq + 1 ≤ 1
              omega
          · exact ⟨h1, h2, h3, h4⟩
    | blank => exact ⟨h1, h2, h3, h4⟩
    | playback => exact ⟨h1, h2, h3, h4⟩
    | cleared => exact ⟨h1, h2, h3, h4⟩
  | clickRecordAgain =>
    simp only [step]
    split
    · exact absurd (by assumption) h1
    · exact ⟨h1, h2, h3, h4⟩
  | clickContinue =>
    simp only [step]
    split
    · exact absurd (by assumption) h1
    · exact ⟨h1, h2, h3, h4⟩
  | readerB64Load =>
    cases rb with
    | nil => exact ⟨h1, h2, h3, h4⟩
    | cons bs rest =>
      simp only [step, resolveLoad]
      cases ra with
      | false => exact ⟨h1, h2, by simpa using h3, h4⟩
      | true =>
        refine ⟨h1, h2, ?_, h4⟩
        have h3' : oc.length + cq + 1 ≤ srq := by simpa using h3
        show oc.length + (cq + 1) + 0 ≤ srq
        omega
  | readerBufLoad =>
    cases rbuf with
    | nil => exact ⟨h1, h2, h3, h4⟩
    | cons bs rest => exact ⟨h1, h2, h3, h4⟩
  | runCont =>
    simp only [step, afterStop, h, Bool.false_eq_true, if_false, reduceIte, endTrial,
      endTrialData]
    split
    · rename_i hcq
      refine ⟨by simp, h2, ?_, h4⟩
      simp only [List.length_append, List.length_singleton]
      omega
    · exact ⟨h1, h2, h3, h4⟩

theorem run_invNP (cfg : Config) (h : cfg.allow_playback = false)
    (evs : List Ev) : InvNP (run cfg evs) := by
  rw [run]
  have main : ∀ (l : List Ev) (s : St), InvNP s → InvNP (List.foldl (step cfg) s l) := by
    intro l
    induction l with
    | nil => intro s hs; exact hs
    | cons e l ih =>
      intro s hs
      exact ih _ (invNP_step cfg h s hs e)
  exact main evs initSt invNP_init

/-- Inductive invariant for trials configured with recording_duration null
and the done button hidden: no deadline timer is ever armed, no done button
is ever rendered, hence no stop is ever requested, and none of the
finalization machinery (stop events, readers, resolver, continuations) or
outcomes can appear. -/
def InvC9 (s : St) : Prop :=
  s.deadlineTimers = 0 ∧
  (∀ v, s.display ≠ Display.stim true v) ∧
  s.display ≠ Display.playback ∧
  s.stopRequests = 0 ∧
  DevQ.stopped ∉ s.devQueue ∧
  s.b64Readers = [] ∧
  s.resolverArmed = false ∧
  s.contQueued = 0 ∧
  s.outcomes = []

theorem invC9_init : InvC9 initSt := by
  simp [InvC9, initSt]

theorem invC9_step (cfg : Config) (hrd : cfg.recording_duration = none)
    (hsb : cfg.show_done_button = false)
    (s : St) (hs : InvC9 s) (e : Ev) : InvC9 (step cfg s e) := by
  obtain ⟨rec, dq, chunks, resp, aurl, nurl, rvk, rtv, sst, rst, ht, dt, ro, disp,
    ra, cq, rb, rbuf, ab, db, ls, oc, srq⟩ := s
  obtain ⟨h1, h2, h3, h4, h5, h6, h7, h8, h9⟩ := hs
  simp only [InvC9] at h1 h2 h3 h4 h5 h6 h7 h8 h9 ⊢
  subst h1 h4 h6 h7 h8 h9
  cases e with
  | deliverDevice t now =>
    cases dq with
    | nil => refine ⟨?_, h2, h3, ?_, h5, ?_, ?_, ?_, ?_⟩ <;> trivial
    | cons e1 rest =>
      have h5' : DevQ.stopped ∉ rest := fun hm => h5 (List.mem_cons_of_mem _ hm)
      cases e1 with
      | stopped => exact absurd (List.mem_cons_self _ _) h5
      | started =>
        cases ls with
        | false => refine ⟨?_, h2, h3, ?_, h5', ?_, ?_, ?_, ?_⟩ <;> trivial
        | true =>
          refine ⟨?_, ?_, ?_, rfl, h5', rfl, rfl, rfl, rfl⟩
          · show 0 + (if cfg.recording_duration.isSome then 1 else 0) = 0
            simp [hrd]
          · show ∀ v, Display.stim cfg.show_done_button true ≠ Display.stim true v
            simp [hsb]
          · show Display.stim cfg.show_done_button true ≠ Display.playback
            simp
  | deliverData c =>
    simp only [step, data_available_handler]
    split
    · split
      · split <;> refine ⟨?_, h2, h3, ?_, h5, ?_, ?_, ?_, ?_⟩ <;> trivial
      · refine ⟨?_, h2, h3, ?_, h5, ?_, ?_, ?_, ?_⟩ <;> trivial
    · refine ⟨?_, h2, h3, ?_, h5, ?_, ?_, ?_, ?_⟩ <;> trivial
  | resizeFire t =>
    simp only [step]
    split <;> refine ⟨?_, h2, h3, ?_, h5, ?_, ?_, ?_, ?_⟩ <;> trivial
  | fireHideTimer =>
    simp only [step, hideStimulus]
    split
    · cases disp with
      | blank => refine ⟨?_, h2, h3, ?_, h5, ?_, ?_, ?_, ?_⟩ <;> trivial
      | stim d v =>
        have hd : d = false := by
          cases d
          · rfl
          · exact absurd rfl (h2 v)
        subst hd
        refine ⟨?_, by simp, by simp, ?_, h5, ?_, ?_, ?_, ?_⟩ <;> trivial
      | playback => refine ⟨?_, h2, h3, ?_, h5, ?_, ?_, ?_, ?_⟩ <;> trivial
      | cleared => refine ⟨?_, h2, h3, ?_, h5, ?_, ?_, ?_, ?_⟩ <;> trivial
    · refine ⟨?_, h2, h3, ?_, h5, ?_, ?_, ?_, ?_⟩ <;> trivial
  | fireDeadlineTimer =>
    refine ⟨?_, h2, h3, ?_, h5, ?_, ?_, ?_, ?_⟩ <;> trivial
  | clickDone t =>
    cases disp with
    | blank => refine ⟨?_, h2, h3, ?_, h5, ?_, ?_, ?_, ?_⟩ <;> trivial
    | stim d v =>
      cases d with
      | false => refine ⟨?_, h2, h3, ?_, h5, ?_, ?_, ?_, ?_⟩ <;> trivial
      | true => exact absurd rfl (h2 v)
    | playback => refine ⟨?_, h2, h3, ?_, h5, ?_, ?_, ?_, ?_⟩ <;> trivial
    | cleared => refine ⟨?_, h2, h3, ?_, h5, ?_, ?_, ?_, ?_⟩ <;> trivial
  | clickRecordAgain =>
    by_cases hdisp : disp = Display.playback
    · exact absurd hdisp h3
    · simp only [step, hdisp, if_false, reduceIte]
      refine ⟨?_, h2, h3, ?_, h5, ?_, ?_, ?_, ?_⟩ <;> trivial
  | clickContinue =>
    by_cases hdisp : disp = Display.playback
    · exact absurd hdisp h3
    · simp only [step, hdisp, if_false, reduceIte]
      refine ⟨?_, h2, h3, ?_, h5, ?_, ?_, ?_, ?_⟩ <;> trivial
  | readerB64Load =>
    refine ⟨?_, h2, h3, ?_, h5, ?_, ?_, ?_, ?_⟩ <;> trivial
  | readerBufLoad =>
    cases rbuf with
    | nil => refine ⟨?_, h2, h3, ?_, h5, ?_, ?_, ?_, ?_⟩ <;> trivial
    | cons bs rest => refine ⟨?_, h2, h3, ?_, h5, ?_, ?_, ?_, ?_⟩ <;> trivial
  | runCont =>
    refine ⟨?_, h2, h3, ?_, h5, ?_, ?_, ?_, ?_⟩ <;> trivial

theorem run_invC9 (cfg : Config) (hrd : cfg.recording_duration = none)
    (hsb : cfg.show_done_button = false) (evs : List Ev) : InvC9 (run cfg evs) := by
  rw [run]
  have main : ∀ (l : List Ev) (s : St), InvC9 s → InvC9 (List.foldl (step cfg) s l) := by
    intro l
    induction l with
    | nil => intro s hs; exact hs
    | cons e l ih =>
      intro s hs
      exact ih _ (invC9_step cfg hrd hsb s hs e)
  exact main evs initSt invC9_init

/-- Whenever a step appends an outcome, that outcome is exactly the
trial_data assembled by endTrial from the pre-step state: the only outcome
producers are the accept-button click and the after-stop continuation, and
both call endTrial. -/
theorem outcome_production (cfg : Config) (s : St) (e : Ev) (o : TrialData)
    (h : (step cfg s e).outcomes = s.outcomes ++ [o]) :
    o = endTrialData cfg s := by
  obtain ⟨rec, dq, chunks, resp, aurl, nurl, rvk, rtv, sst, rst, ht, dt, ro, disp,
    ra, cq, rb, rbuf, ab, db, ls, oc, srq⟩ := s
  cases e with
  | deliverDevice t now =>
    exfalso
    cases dq with
    | nil => simp [step] at h
    | cons e1 rest =>
      cases ls with
      | false => simp [step] at h
      | true =>
        cases e1 with
        | started => simp [step, start_event_handler, showDisplay] at h
        | stopped =>
          cases chunks with
          | nil => simp [step, stop_event_handler] at h
          | cons c cs =>
            revert h
            simp only [step, stop_event_handler, Option.getD_some, resolveLoad]
            by_cases hd : cfg.local_download <;> cases ra <;>
              simp [hd]
  | deliverData c =>
    exfalso
    revert h
    simp only [step, data_available_handler]
    split
    · split
      · split <;> intro h <;> simp at h
      · intro h; simp at h
    · intro h; simp at h
  | resizeFire t =>
    exfalso
    revert h
    simp only [step]
    split <;> intro h <;> simp at h
  | fireHideTimer =>
    exfalso
    revert h
    simp only [step, hideStimulus]
    split
    · cases disp <;> intro h <;> simp at h
    · intro h; simp at h
  | fireDeadlineTimer =>
    exfalso
    revert h
    simp only [step, stopRecording]
    split
    · split
      · split <;> intro h <;> simp at h
      · intro h; simp at h
    · intro h; simp at h
  | clickDone t =>
    exfalso
    cases disp with
    | blank => simp [step] at h
    | playback => simp [step] at h
    | cleared => simp [step] at h
    | stim d v =>
      cases d with
      | false => simp [step] at h
      | true =>
        cases sst with
        | none => simp [step] at h
        | some sv =>
          revert h
          simp only [step, stopRecording]
          split <;> intro h <;> simp at h
  | clickRecordAgain =>
    exfalso
    revert h
    simp only [step, startRecordingOn]
    split
    · split <;> intro h <;> simp at h
    · intro h; simp at h
  | clickContinue =>
    revert h
    simp only [step, endTrial]
    split
    · intro h
      have h' := List.append_cancel_left h
      simpa using h'.symm
    · intro h; exfalso; simp at h
  | readerB64Load =>
    exfalso
    cases rb with
    | nil => simp [step] at h
    | cons bs rest =>
      revert h
      simp only [step, resolveLoad]
      cases ra <;> simp
  | readerBufLoad =>
    exfalso
    cases rbuf with
    | nil => simp [step] at h
    | cons bs rest => simp [step] at h
  | runCont =>
    revert h
    simp only [step, afterStop]
    split
    · split
      · intro h; exfalso; simp [showPlaybackControls] at h
      · simp only [endTrial]
        intro h
        have h' := List.append_cancel_left h
        simpa using h'.symm
    · intro h; exfalso; simp at h

/-! ### Concrete trial configurations and event schedules -/

def baseCfg : Config :=
  { stimulus := "<p>Please name the picture</p>"
    stimulus_duration := none
    recording_duration := some 2000
    show_done_button := true
    done_button_label := "Continue"
    record_again_button_label := "Record again"
    accept_button_label := "Continue"
    allow_playback := false
    save_audio_url := true
    local_download := false
    download_file_name := "audio-response" }

def chunk5 : Chunk := { data := [5], type := "audio/webm" }

def chunk7 : Chunk := { data := [7], type := "audio/webm" }

/-- C1 counterexample configuration: playback review plus local download. -/
def cfgC1 : Config := { baseCfg with allow_playback := true, local_download := true }

/-- C1 counterexample schedule: record, stop via the done button at 500 ms,
conclude via a first accept click while a re-record is pending; then the
still-pending base64 FileReader load resolves the promise armed by the
stale deadline timer, the continuation re-renders the playback controls
after the trial already ended, and a second accept click runs endTrial
again. -/
def evsC1 : List Ev :=
  [Ev.deliverDevice 10 10,
   Ev.resizeFire 20,
   Ev.deliverData chunk5,
   Ev.clickDone 500,
   Ev.deliverDevice 501 501,
   Ev.runCont,
   Ev.clickRecordAgain,
   Ev.fireDeadlineTimer,
   Ev.clickContinue,
   Ev.readerB64Load,
   Ev.runCont,
   Ev.clickContinue]

def cfgC1w : Config := baseCfg

def evsC1w : List Ev :=
  [Ev.deliverDevice 10 10, Ev.resizeFire 20, Ev.deliverData chunk5,
   Ev.clickDone 500, Ev.deliverDevice 501 501, Ev.readerB64Load, Ev.runCont]

/-- C2 failing configuration: local download with playback review. -/
def cfgC2 : Config :=
  { baseCfg with
    allow_playback := true
    local_download := true
    recording_duration := none }

/-- C2 failing schedule: the stop handler sets the response to the download
file name, but the base64 FileReader it also started overwrites the
response before the accept click, so finishTrial receives the base64
string. -/
def evsC2 : List Ev :=
  [Ev.deliverDevice 10 10, Ev.resizeFire 20, Ev.deliverData chunk5,
   Ev.clickDone 400, Ev.deliverDevice 401 401, Ev.runCont, Ev.readerB64Load,
   Ev.clickContinue]

/-- C3 failing configuration: playback review with a 2000 ms deadline. -/
def cfgC3 : Config := { baseCfg with allow_playback := true }

/-- C3 failing schedule prefix: attempt 1 is stopped by the done button at
520 ms and re-recorded; attempt 2 is recording when the first attempt's
deadline timer (armed at trial start) is still pending. -/
def evsC3 : List Ev :=
  [Ev.deliverDevice 10 10, Ev.resizeFire 20, Ev.deliverData chunk5,
   Ev.clickDone 520, Ev.deliverDevice 521 521, Ev.readerB64Load, Ev.runCont,
   Ev.clickRecordAgain, Ev.deliverDevice 1000 1000, Ev.resizeFire 1010,
   Ev.deliverData chunk7]

/-- C4 configuration and schedule: attempt 1 stopped by the done button
(rt 500), re-record, attempt 2 stopped by the deadline timer with no done
click, then accepted. -/
def cfgC4 : Config := { baseCfg with allow_playback := true }

def evsC4pre : List Ev :=
  [Ev.deliverDevice 10 10, Ev.resizeFire 20, Ev.deliverData chunk5,
   Ev.clickDone 520, Ev.deliverDevice 521 521, Ev.readerB64Load, Ev.runCont,
   Ev.clickRecordAgain]

def evsC4 : List Ev :=
  evsC4pre ++
  [Ev.deliverDevice 1000 1000, Ev.resizeFire 1010, Ev.deliverData chunk7,
   Ev.fireDeadlineTimer, Ev.deliverDevice 3000 3000, Ev.readerB64Load,
   Ev.runCont, Ev.clickContinue]

/-- C7 configuration (no playback) and its schedules. -/
def cfgC7 : Config := { baseCfg with recording_duration := none }

def evsC7 : List Ev :=
  [Ev.deliverDevice 100 100, Ev.resizeFire 150, Ev.deliverData chunk5,
   Ev.clickDone 600, Ev.deliverDevice 601 601, Ev.readerB64Load]

/-- The timestamp 99.75 ms (399/4), a quarter of a millisecond before the
recording-start timestamp 100 used in the C7 counterexample schedule. -/
def tC7 : ℚ := ⟨399, 4, by norm_num, by norm_num⟩

def evsC7c : List Ev :=
  [Ev.deliverDevice 100 100, Ev.resizeFire tC7, Ev.deliverData chunk5,
   Ev.clickDone 600, Ev.deliverDevice 601 601, Ev.readerB64Load, Ev.runCont]

/-- C8 configuration and schedule: one three-byte fragment recorded and
stopped, leaving its pending base64 reader. -/
def cfgC8 : Config := { baseCfg with recording_duration := none }

def chunkC8 : Chunk := { data := [5, 6, 7], type := "audio/webm" }

def evsC8 : List Ev :=
  [Ev.deliverDevice 10 10, Ev.resizeFire 20, Ev.deliverData chunkC8,
   Ev.clickDone 400, Ev.deliverDevice 401 401]

/-- C9 configuration: no recording deadline and no done button. -/
def cfgC9 : Config := { baseCfg with recording_duration := none, show_done_button := false }

/-- C9 witness schedule: every internal event source fires, including
attempted clicks on controls that were never rendered. -/
def evsC9 : List Ev :=
  [Ev.deliverDevice 10 10, Ev.resizeFire 20, Ev.deliverData chunk5,
   Ev.fireHideTimer, Ev.fireDeadlineTimer, Ev.clickDone 600, Ev.clickContinue,
   Ev.clickRecordAgain, Ev.runCont, Ev.readerB64Load, Ev.readerBufLoad]

/-- The transcribe environments used for C5 and C6. -/
def envC5 : TranscribeEnv :=
  { pipelineResult := Except.error TrError.engineUnavailable
    fetchResult := fun _ => Except.ok []
    transcriberResult := fun _ => Except.ok "transcript" }

def envC5w : TranscribeEnv :=
  { pipelineResult := Except.ok ()
    fetchResult := fun _ => Except.error TrError.fetchFailure
    transcriberResult := fun _ => Except.ok "transcript" }

def envC6 : TranscribeEnv :=
  { pipelineResult := Except.ok ()
    fetchResult := fun _ => Except.ok [1, 2]
    transcriberResult := fun _ => Except.ok "hello world" }

/-! ### The claims -/

/-- C1 (amended): with allow_playback disabled, at most one Trial Outcome is
handed to the host over every device/timer/button/reader schedule (so once
the trial concludes, endTrial ran exactly once).  The original claim, over
all configurations, fails: see the counterexample theorem, where playback
review plus local download let a delayed FileReader load resolve a promise
armed by a stale deadline-timer stop after conclusion, re-rendering the
playback controls and concluding a second time. -/
theorem C1_at_most_one_outcome_without_playback (cfg : Config)
    (h : cfg.allow_playback = false) (evs : List Ev) :
    (run cfg evs).outcomes.length ≤ 1 := by
  obtain ⟨h1, h2, h3, h4⟩ := run_invNP cfg h evs
  cases hr : (run cfg evs).resolverArmed <;> rw [hr] at h3 <;> simp at h3 <;> omega

theorem C1_witness :
    cfgC1w.allow_playback = false ∧ (run cfgC1w evsC1w).outcomes.length ≤ 1 :=
  ⟨rfl, C1_at_most_one_outcome_without_playback cfgC1w rfl evsC1w⟩

/-- C1 counterexample: a schedule under cfgC1 (allow_playback and
local_download) in which jsPsych.finishTrial is called twice for one
trial — endTrial runs once from the first accept click and once more from
the continuation resolved by the still-pending base64 reader after the
stale deadline-timer stop. -/
theorem C1_counterexample : (run cfgC1 evsC1).outcomes.length = 2 := by decide

/-- C2: with local_download = true the stop handler assigns the download
file name to the response and resolves the stop promise, but (missing early
return) it still starts the base64 FileReader, whose load handler later
overwrites this.response with the base64 string; under cfgC2 (playback
review) the outcome handed to the host is the base64 string, not the file
name, contradicting the claim and the parameter's own documentation. -/
theorem C2_local_download_response_overwritten :
    cfgC2.local_download = true ∧
    (run cfgC2 evsC2).outcomes.map TrialData.response = [some (base64Encode [5])] ∧
    base64Encode [5] ≠ downloadFilename cfgC2 401 := by decide

/-- C3: the recording-deadline callback guards only on the recorder being
inactive, so the first attempt's stale timer, firing while the re-recorded
second attempt is recording, is not a no-op: it issues a second device-stop
request and stops the second attempt.  After the evsC3 prefix (done click
at 520 ms, record again, attempt 2 recording) the stale deadline firing
takes the recorder from recording to inactive and raises the stop-request
count from 1 to 2. -/
theorem C3_stale_deadline_stops_second_attempt :
    (run cfgC3 evsC3).recState = RecState.recording ∧
    (run cfgC3 evsC3).stopRequests = 1 ∧
    (step cfgC3 (run cfgC3 evsC3) Ev.fireDeadlineTimer).recState = RecState.inactive ∧
    (step cfgC3 (run cfgC3 evsC3) Ev.fireDeadlineTimer).stopRequests = 2 := by decide

/-- C4 (amended): every delivered start event clears the fragment
accumulator (so the artifact finalized at the next stop is built from the
fragments of the current attempt only), the stop handler hands exactly the
current fragment sequence's bytes to the readers, and a record-again click
revokes the current addressable handle.  The original claim's statement
about the timing fields fails for rt: it is assigned only in the done-click
handler and never reset, so when the final attempt ends via the deadline
timer the outcome keeps the previous attempt's rt — see the counterexample
theorem. -/
theorem C4_rerecord_reset_and_revocation (cfg : Config) (s : St) (t : ℚ) (now : ℤ) :
    (s.devQueue.head? = some DevQ.started → s.listeners = true →
      (step cfg s (Ev.deliverDevice t now)).recorded_data_chunks = []) ∧
    (∀ s', stop_event_handler cfg now s = some s' →
      s'.b64Readers = s.b64Readers ++ [blobBytes s.recorded_data_chunks]) ∧
    (s.display = Display.playback →
      (step cfg s Ev.clickRecordAgain).revoked = s.revoked ++ s.audio_url.toList) := by
  obtain ⟨rec, dq, chunks, resp, aurl, nurl, rvk, rtv, sst, rst, ht, dt, ro, disp,
    ra, cq, rb, rbuf, ab, db, ls, oc, srq⟩ := s
  refine ⟨?_, ?_, ?_⟩
  · intro hq hl
    cases dq with
    | nil => simp at hq
    | cons e1 rest =>
      simp only [List.head?_cons, Option.some.injEq] at hq
      subst hq
      simp only at hl
      subst hl
      rfl
  · intro s' hstop
    cases chunks with
    | nil => simp [stop_event_handler] at hstop
    | cons c cs =>
      revert hstop
      simp only [stop_event_handler, Option.some.injEq]
      by_cases hd : cfg.local_download <;> cases ra <;>
        simp [hd, resolveLoad] <;> intro hstop <;> rw [← hstop]
  · intro hdisp
    subst hdisp
    simp only [step, startRecordingOn]
    cases rec <;> rfl

theorem C4_witness :
    (run cfgC4 evsC4pre).devQueue.head? = some DevQ.started ∧
    (run cfgC4 evsC4pre).display = Display.playback ∧
    (step cfgC4 (run cfgC4 evsC4pre) (Ev.deliverDevice 1000 1000)).recorded_data_chunks
      = [] ∧
    (step cfgC4 (run cfgC4 evsC4pre) Ev.clickRecordAgain).revoked
      = (run cfgC4 evsC4pre).revoked ++ (run cfgC4 evsC4pre).audio_url.toList := by
  have h := C4_rerecord_reset_and_revocation cfgC4 (run cfgC4 evsC4pre) 1000 1000
  exact ⟨by decide, by decide, h.1 (by decide) (by decide), h.2.2 (by decide)⟩

/-- C4 counterexample: under cfgC4, attempt 1 ends via the done button at
520 ms (rt 500), attempt 2 ends via the deadline timer with no done click,
and the accepted outcome still carries rt 500 from the first attempt — a
stale timing field — even though its response is the second attempt's
audio. -/
theorem C4_counterexample :
    (run cfgC4 evsC4).outcomes.map TrialData.rt = [some 500] ∧
    (run cfgC4 evsC4).outcomes.map TrialData.response = [some (base64Encode [7])] := by
  decide

/-- C5 (amended): transcribe contains no try/catch, so none of its failure
modes is caught or logged inside the dispatcher: an engine-load failure, a
fetch failure or a transcriber failure each escapes as the rejection of the
detached promise (with no log produced).  Because endTrial hands the
outcome to the host via finishTrial before invoking transcribe and nothing
awaits it, the escaped failure still cannot reach the trial or alter the
already-delivered Trial Outcome. -/
theorem C5_failures_escape_uncaught (env : TranscribeEnv) (u : String)
    (ab d : Option (List Nat)) (e : TrError)
    (h : env.pipelineResult = Except.error e ∨
        (env.pipelineResult = Except.ok () ∧ env.fetchResult u = Except.error e) ∨
        (env.pipelineResult = Except.ok () ∧ (∃ bs, env.fetchResult u = Except.ok bs) ∧
          env.transcriberResult ⟨hardcodedWav, "word"⟩ = Except.error e)) :
    transcribe env u ab d = Except.error e := by
  rcases h with h1 | ⟨h1, h2⟩ | ⟨h1, ⟨bs, h2⟩, h3⟩
  · simp [transcribe, h1, bind, Except.bind]
  · simp [transcribe, h1, h2, bind, Except.bind]
  · simp [transcribe, h1, h2, h3, bind, Except.bind]

theorem C5_witness :
    transcribe envC5w "blob:0" none none = Except.error TrError.fetchFailure :=
  C5_failures_escape_uncaught envC5w "blob:0" none none TrError.fetchFailure
    (Or.inr (Or.inl ⟨rfl, rfl⟩))

/-- C5 counterexample: with the engine unavailable, transcribe returns the
error itself — the failure is not caught and logged inside the dispatcher,
it propagates out as the rejection of the (detached) promise. -/
theorem C5_counterexample :
    transcribe envC5 "blob:cafe" none none = Except.error TrError.engineUnavailable := rfl

/-- C6: every successful transcribe run does re-fetch the trial's artifact
from its handle and requests word-level timestamps, but it invokes the
engine on the hard-coded localhost wav URL, not on the fetched artifact:
the engine-call audio source is hardcodedWav regardless of the trial's
audio_url. -/
theorem C6_engine_called_on_hardcoded_source (env : TranscribeEnv) (u : String)
    (ab d : Option (List Nat)) (r : TranscribeRun)
    (h : transcribe env u ab d = Except.ok r) :
    r.call.source = hardcodedWav ∧ r.call.return_ts = "word" := by
  revert h
  simp only [transcribe]
  cases hp : env.pipelineResult <;> cases hf : env.fetchResult u <;>
    cases ht : env.transcriberResult ⟨hardcodedWav, "word"⟩ <;>
    simp [hp, hf, ht, bind, Except.bind, pure, Except.pure]
  intro h
  rw [← h]
  exact ⟨rfl, rfl⟩

theorem C6_witness :
    transcribe envC6 "blob:3" none none =
      Except.ok ⟨⟨hardcodedWav, "word"⟩, "hello world", ["hello world"]⟩ ∧
    hardcodedWav ≠ "blob:3" ∧
    (⟨⟨hardcodedWav, "word"⟩, "hello world", ["hello world"]⟩ : TranscribeRun).call.source
      = hardcodedWav := by
  have h : transcribe envC6 "blob:3" none none =
      Except.ok ⟨⟨hardcodedWav, "word"⟩, "hello world", ["hello world"]⟩ := rfl
  exact ⟨h, by decide,
    (C6_engine_called_on_hardcoded_source envC6 "blob:3" none none _ h).1⟩

/-- C7 (amended): whenever a step emits a Trial Outcome and both timestamps
were recorded, estimated_stimulus_onset equals
round (stimulus-visible-time - recording-start-time); the value is negative
exactly when stimulus visibility precedes recording start by more than half
a millisecond.  The original claim's gloss that the value is negative
whenever recording started after visibility fails on sub-half-millisecond
differences — see the counterexample theorem. -/
theorem C7_onset_is_rounded_difference (cfg : Config) (s : St) (e : Ev)
    (o : TrialData) (sv rs : ℚ)
    (h : (step cfg s e).outcomes = s.outcomes ++ [o])
    (hsv : s.stimulus_start_time = some sv) (hrs : s.recorder_start_time = some rs) :
    o.estimated_stimulus_onset = some (round (sv - rs)) ∧
    (round (sv - rs) < 0 ↔ sv - rs < -(1/2)) := by
  have ho := outcome_production cfg s e o h
  subst ho
  constructor
  · simp [endTrialData, hsv, hrs, jsRound_eq]
  · rw [round_eq, Int.floor_lt]
    constructor <;> intro hlt <;> [push_cast at hlt; push_cast] <;> linarith

/-- The outcome literal produced at the end of the evsC7 schedule, where the
stimulus became visible 50 ms after the recording started. -/
def oC7 : TrialData :=
  { rt := some 450
    stimulus := cfgC7.stimulus
    response := some (base64Encode [5])
    estimated_stimulus_onset := some 50
    audio_url := some 0 }

theorem C7_witness :
    (step cfgC7 (run cfgC7 evsC7) Ev.runCont).outcomes
      = (run cfgC7 evsC7).outcomes ++ [oC7] ∧
    oC7.estimated_stimulus_onset = some (round ((150 : ℚ) - 100)) ∧
    oC7.estimated_stimulus_onset = some 50 := by
  have hstep : (step cfgC7 (run cfgC7 evsC7) Ev.runCont).outcomes
      = (run cfgC7 evsC7).outcomes ++ [oC7] := by decide
  have h := C7_onset_is_rounded_difference cfgC7 (run cfgC7 evsC7) Ev.runCont oC7
    150 100 hstep (by decide) (by decide)
  exact ⟨hstep, h.1, by decide⟩

/-- C7 counterexample: with stimulus visibility at 99.75 ms and recording
start at 100 ms — recording starts a quarter of a millisecond after the
stimulus became visible — the emitted estimated_stimulus_onset is 0, not
negative, refuting the claim that the value is negative whenever recording
started after stimulus visibility. -/
theorem C7_counterexample :
    (run cfgC7 evsC7c).outcomes.map TrialData.estimated_stimulus_onset = [some 0] ∧
    tC7 < 100 := by decide

/-- C8: when the base64 reader created for a non-empty fragment sequence
fires, the response it assigns is the base64 encoding of the assembled
blob's bytes, and decoding that response yields exactly the concatenation
of the fragments' bytes (the round-trip law). -/
theorem C8_response_base64_roundtrip (cfg : Config) (s : St)
    (rest : List (List Nat)) (cs : List Chunk)
    (_hne : cs ≠ []) (hq : s.b64Readers = blobBytes cs :: rest)
    (hb : ∀ b ∈ blobBytes cs, b < 256) :
    (step cfg s Ev.readerB64Load).response = some (base64Encode (blobBytes cs)) ∧
    base64Decode (base64Encode (blobBytes cs)) = some (blobBytes cs) := by
  constructor
  · obtain ⟨rec, dq, chunks, resp, aurl, nurl, rvk, rtv, sst, rst, ht, dt, ro, disp,
      ra, cq, rb, rbuf, ab, db, ls, oc, srq⟩ := s
    simp only at hq
    subst hq
    cases ra <;> rfl
  · exact base64_roundtrip _ hb

theorem C8_witness :
    ([chunkC8] : List Chunk) ≠ [] ∧
    (run cfgC8 evsC8).b64Readers = blobBytes [chunkC8] :: [] ∧
    (step cfgC8 (run cfgC8 evsC8) Ev.readerB64Load).response
      = some (base64Encode (blobBytes [chunkC8])) ∧
    base64Decode (base64Encode (blobBytes [chunkC8])) = some (blobBytes [chunkC8]) := by
  have h := C8_response_base64_roundtrip cfgC8 (run cfgC8 evsC8) [] [chunkC8]
    (by decide) (by decide) (by decide)
  exact ⟨by decide, by decide, h.1, h.2⟩

/-- C9: with recording_duration null and the done button hidden, no schedule
of internal events reaches trial conclusion — no deadline timer is ever
armed, no done button is rendered, no stop is ever requested, and no Trial
Outcome is emitted before an external stop. -/
theorem C9_no_autonomous_conclusion (cfg : Config)
    (h1 : cfg.recording_duration = none) (h2 : cfg.show_done_button = false)
    (evs : List Ev) : (run cfg evs).outcomes = [] ∧ (run cfg evs).stopRequests = 0 ∧
      (run cfg evs).deadlineTimers = 0 := by
  obtain ⟨i1, i2, i3, i4, i5, i6, i7, i8, i9⟩ := run_invC9 cfg h1 h2 evs
  exact ⟨i9, i4, i1⟩

theorem C9_witness :
    cfgC9.recording_duration = none ∧ cfgC9.show_done_button = false ∧
    (run cfgC9 evsC9).outcomes = [] := by
  refine ⟨rfl, rfl, ?_⟩
  exact (C9_no_autonomous_conclusion cfgC9 rfl rfl evsC9).1

/-- C10: the stop handler's access to recorded_data_chunks[0].type (while
assembling the Blob) succeeds exactly when at least one non-empty fragment
was appended before the stop event: on the empty fragment sequence the
handler throws before any effect (models the TypeError on reading .type of
undefined), and on any non-empty sequence it completes. -/
theorem C10_stop_handler_defined_iff_chunks (cfg : Config) (now : ℤ) (s : St) :
    (stop_event_handler cfg now s).isSome ↔ s.recorded_data_chunks ≠ [] := by
  rcases hc : s.recorded_data_chunks with _ | ⟨c, cs⟩ <;>
    simp [stop_event_handler, hc]

end VoiceResponse
